import Mathlib

/-!
# Verification of the `auth` package of the book management system

This file is a shallow embedding of the authentication/authorization core of
the repository (package `auth`: JWT issuance/validation and the Echo
middleware) together with proofs of the specification's claims about it.

Modelling conventions:

* Time is modelled as an integer number of nanoseconds (`Int`), the unit of
  Go's `time.Duration`; the Go code reads the clock with `time.Now()` at
  issuance and the jwt library reads it again at validation, so both
  operations take an explicit `now : Int` parameter.  The expiry offset
  `time.Hour * time.Duration(h)` is an `int64` multiplication that wraps on
  overflow, so it becomes `wrap64 (3600000000000 * h)`; `time.Time` addition
  itself is modelled unbounded (Go's `Time` does not wrap at these
  magnitudes).  The second-level truncation `NumericDate` marshalling
  performs is not modelled: no claim here depends on sub-second boundaries.
* A token string on the wire is represented by its decode result (`Tok`): a
  well-formed token is a payload together with its signature segment, and any
  string that is not a well-formed three-segment base64url/JSON token is
  `Tok.malformed`.  The base64url/JSON codec of the external jwt library is
  injective on well-formed tokens, so this representation is faithful; where
  the middleware hands a `String` to the validator, the external parse is an
  explicit `decode : String → Tok` parameter.
* The HMAC-SHA256 signature over the encoded header+claims is modelled by a
  concrete executable keyed hash `macSign`; the validator recomputes it over
  the received payload and compares it to the presented signature segment
  byte-for-byte, exactly as `jwt.ParseWithClaims` does.  No property proved
  here depends on collision behaviour of the hash.
* The golang-jwt/v5 default validator (leeway 0, `iat` not verified) accepts
  a token iff `now < exp` and `nbf ≤ now`; `ValidateToken` below implements
  signature check then this window check, any failure being an error result
  (the Go function returns `(nil, err)`).
* An `echo.Context` is modelled by `Ctx`: the request's `Authorization`
  header (Go's `Header.Get` returns `""` both for an absent and an empty
  header, so a plain `String` is faithful) and the single context key
  `UserContextKey` under which `RequireAuth` stores `*Claims` (an
  `Option Claims`).  A handler maps a context to a response; the middleware's
  short-circuit `c.JSON(status, {"message": msg})` is `Resp.error status msg`
  and delegation to the wrapped handler is application of `next`.
-/

/-- The principal, Go interface `auth.User` (`GetID`, `GetEmail`, `GetRole`). -/
structure User where
  id : String
  email : String
  role : String
deriving DecidableEq, Repr

/-- Decoded access-token claims, Go struct `auth.Claims` (fields `UserID`,
`Email`, `Role` plus the embedded `jwt.RegisteredClaims` used by the code:
`ExpiresAt`, `IssuedAt`, `NotBefore`, `Subject`, in seconds). -/
structure Claims where
  UserID : String
  Email : String
  Role : String
  ExpiresAt : Int
  IssuedAt : Int
  NotBefore : Int
  Subject : String
deriving DecidableEq, Repr

/-- Go struct `auth.JWT`. -/
structure JWT where
  secret : String
  expiryHours : Int
  refreshExpiryHours : Int
deriving DecidableEq, Repr

/-- Go `auth.NewJWT`: stores the three configuration values unchanged. -/
def NewJWT (secret : String) (expiryHours refreshExpiryHours : Int) : JWT :=
  { secret := secret
    expiryHours := expiryHours
    refreshExpiryHours := refreshExpiryHours }

/-- The JSON payload segment of a token as the jwt library serialises it:
the custom keys `user_id`, `email`, `role` (absent — `none` — in a refresh
token, which is built from a bare `jwt.RegisteredClaims`) and the registered
keys `exp`, `iat`, `nbf`, `sub`. -/
structure Payload where
  user_id : Option String
  email : Option String
  role : Option String
  exp : Int
  iat : Int
  nbf : Int
  sub : String
deriving DecidableEq, Repr

/-- A presented token string, represented by its decode result: either a
well-formed header/payload/signature token (header fixed to HS256 by the
code, hence omitted) or a malformed string. -/
inductive Tok where
  | malformed (raw : String)
  | wf (payload : Payload) (sig : String)
deriving DecidableEq, Repr

/-- Go struct `auth.TokenPair` (tokens represented by their decoded form). -/
structure TokenPair where
  AccessToken : Tok
  RefreshToken : Tok
deriving DecidableEq, Repr

/-- The payload of a well-formed token. -/
def Tok.payload? : Tok → Option Payload
  | .malformed _ => none
  | .wf p _ => some p

/-- Serialisation of the payload into the signing input (header+claims
encoding).  The concrete format is immaterial to every claim proved here;
what matters is that issuance and validation use the same encoding, as in
the jwt library. -/
def signingInput (p : Payload) : String :=
  let enc : Option String → String := fun o =>
    match o with
    | none => "-"
    | some s => "+" ++ s
  enc p.user_id ++ "|" ++ enc p.email ++ "|" ++ enc p.role ++ "|" ++
    toString p.exp ++ "|" ++ toString p.iat ++ "|" ++ toString p.nbf ++ "|" ++ p.sub

/-- Concrete executable model of the keyed MAC (HMAC-SHA256 in the code):
a deterministic function of the secret and the signing input producing the
signature segment. -/
def macSign (secret input : String) : String :=
  toString ((secret ++ "#" ++ input).data.foldl
    (fun h c => (h * 131 + c.toNat) % 4294967291) 5381)

/-- Claims as they come out of JSON-unmarshalling a payload into Go's
`&Claims{}`: a key absent from the JSON leaves the Go zero value `""`. -/
def claimsOfPayload (p : Payload) : Claims :=
  { UserID := p.user_id.getD ""
    Email := p.email.getD ""
    Role := p.role.getD ""
    ExpiresAt := p.exp
    IssuedAt := p.iat
    NotBefore := p.nbf
    Subject := p.sub }

/-- Validation failures.  The Go code surfaces all of them as a bare
`error`; the constructors record the cause only for the model's sake. -/
inductive TokenError where
  | malformed
  | badSignature
  | outsideWindow
deriving DecidableEq, Repr

/-- Two's-complement wrap-around of a 64-bit signed integer: the value of an
`int64` arithmetic result in Go.  `time.Duration` is an `int64` of
nanoseconds, so `time.Hour * time.Duration(h)` is `wrap64 (3600000000000 * h)`,
which is negative for `h ≥ 2562048` even though `h` is positive. -/
def wrap64 (x : Int) : Int :=
  (x + 9223372036854775808) % 18446744073709551616 - 9223372036854775808

/-- The payload of the access token `JWT.GenerateAccessToken` signs:
`UserID`/`Email`/`Role` from the principal,
`exp = now + time.Hour * time.Duration(expiryHours)` (an `int64` duration
multiplication that wraps on overflow), `iat = nbf = now`,
`sub = user.GetID()`. -/
def JWT.accessPayload (j : JWT) (now : Int) (u : User) : Payload :=
  { user_id := some u.id
    email := some u.email
    role := some u.role
    exp := now + wrap64 (3600000000000 * j.expiryHours)
    iat := now
    nbf := now
    sub := u.id }

/-- The payload of the refresh token `JWT.GenerateRefreshToken` signs: a bare
`jwt.RegisteredClaims`, so no `user_id`/`email`/`role` keys at all;
`exp = now + time.Hour * time.Duration(refreshExpiryHours)` (wrapping
`int64` multiplication), `iat = nbf = now`, `sub = user.GetID()`. -/
def JWT.refreshPayload (j : JWT) (now : Int) (u : User) : Payload :=
  { user_id := none
    email := none
    role := none
    exp := now + wrap64 (3600000000000 * j.refreshExpiryHours)
    iat := now
    nbf := now
    sub := u.id }

/-- Go `JWT.GenerateAccessToken`: signs the access payload with the instance
secret (`SignedString` cannot fail in the model, matching the code where the
only failure is a secret-encoding error treated as misconfiguration). -/
def JWT.GenerateAccessToken (j : JWT) (now : Int) (u : User) : Tok :=
  .wf (j.accessPayload now u) (macSign j.secret (signingInput (j.accessPayload now u)))

/-- Go `JWT.GenerateRefreshToken`. -/
def JWT.GenerateRefreshToken (j : JWT) (now : Int) (u : User) : Tok :=
  .wf (j.refreshPayload now u) (macSign j.secret (signingInput (j.refreshPayload now u)))

/-- Go `JWT.GenerateTokenPair`. -/
def JWT.GenerateTokenPair (j : JWT) (now : Int) (u : User) : TokenPair :=
  { AccessToken := j.GenerateAccessToken now u
    RefreshToken := j.GenerateRefreshToken now u }

/-- Go `JWT.ValidateToken`: `jwt.ParseWithClaims(tokenString, &Claims{}, key)`
— decode (a malformed string fails), verify the recomputed MAC against the
signature segment byte-for-byte, check the golang-jwt/v5 default validity
window `now < exp ∧ nbf ≤ now` (leeway 0), and return the unmarshalled
claims. -/
def JWT.ValidateToken (j : JWT) (now : Int) (t : Tok) : Except TokenError Claims :=
  match t with
  | .malformed _ => .error .malformed
  | .wf p sig =>
    if sig ≠ macSign j.secret (signingInput p) then .error .badSignature
    else if now < p.exp ∧ p.nbf ≤ now then .ok (claimsOfPayload p)
    else .error .outsideWindow

/-- Go `JWT.ValidateRefreshToken`: same parse/verify/window pipeline but
unmarshalling into a bare `jwt.RegisteredClaims` (the custom keys are
ignored), returning only the subject. -/
def JWT.ValidateRefreshToken (j : JWT) (now : Int) (t : Tok) : Except TokenError String :=
  match t with
  | .malformed _ => .error .malformed
  | .wf p sig =>
    if sig ≠ macSign j.secret (signingInput p) then .error .badSignature
    else if now < p.exp ∧ p.nbf ≤ now then .ok p.sub
    else .error .outsideWindow

/-- The context key under which `RequireAuth` stores the claims. -/
def UserContextKey : String := "user"

/-- The inbound request: its `Authorization` header as `Header.Get` returns
it (`""` when the header is absent). -/
structure Request where
  authorization : String
deriving DecidableEq, Repr

/-- An `echo.Context`: the request plus the per-request store restricted to
the single key `UserContextKey` (the only key this package touches). -/
structure Ctx where
  request : Request
  user : Option Claims
deriving DecidableEq, Repr

/-- What a handler produces, as observed at the HTTP boundary:
`Resp.error status msg` is the middleware's `c.JSON(status, {"message": msg})`
short-circuit, `Resp.handled c` records that control reached a downstream
handler with context `c`. -/
inductive Resp where
  | error (status : Nat) (message : String)
  | handled (c : Ctx)
deriving DecidableEq, Repr

/-- An `echo.HandlerFunc`. -/
def Handler : Type := Ctx → Resp

/-- Go struct `auth.Middleware`. -/
structure Middleware where
  jwt : JWT
deriving DecidableEq, Repr

/-- Go `auth.NewMiddleware`. -/
def NewMiddleware (j : JWT) : Middleware :=
  { jwt := j }

/-- Go `strings.SplitN(s, " ", 2)` on the character list: `none` when the list
has no space (Go returns a one-element slice), otherwise the part before the
first space and the entire remainder after it. -/
def splitFirstSpace : List Char → Option (List Char × List Char)
  | [] => none
  | c :: cs =>
    if c = ' ' then some ([], cs)
    else
      match splitFirstSpace cs with
      | none => none
      | some (a, b) => some (c :: a, b)

/-- Go `Middleware.extractToken`: returns `""` when the header is empty, when
`strings.SplitN(header, " ", 2)` does not yield two parts, or when the first
part is not exactly `"Bearer"`; otherwise the second part (the entire
remainder after the first space). -/
def Middleware.extractToken (_ : Middleware) (c : Ctx) : String :=
  let authHeader := c.request.authorization
  if authHeader = "" then ""
  else
    match splitFirstSpace authHeader.data with
    | none => ""
    | some (a, b) =>
      if ¬(String.mk a = "Bearer") then ""
      else String.mk b

/-- Go `Middleware.GetUserFromContext`: `c.Get(UserContextKey)` with the
`*Claims` type assertion; `nil` when the key is unset. -/
def Middleware.GetUserFromContext (_ : Middleware) (c : Ctx) : Option Claims :=
  c.user

/-- Store claims under `UserContextKey`: `c.Set(UserContextKey, claims)`. -/
def Ctx.setUser (c : Ctx) (claims : Claims) : Ctx :=
  { c with user := some claims }

/-- Go `Middleware.RequireAuth`, applied to the wrapped handler.  `now` is
the clock the jwt library reads during validation and `decode` is its parse
of the token string (see the header comment). -/
def Middleware.RequireAuth (m : Middleware) (now : Int) (decode : String → Tok)
    (next : Handler) : Handler :=
  fun c =>
    let token := m.extractToken c
    if token = "" then
      .error 401 "Authorization header is required"
    else
      match m.jwt.ValidateToken now (decode token) with
      | .error _ => .error 401 "Invalid or expired token"
      | .ok claims => next (c.setUser claims)

/-- Go `Middleware.RequireRole`, applied to the wrapped handler. -/
def Middleware.RequireRole (m : Middleware) (role : String) (next : Handler) : Handler :=
  fun c =>
    match m.GetUserFromContext c with
    | none => .error 401 "Authentication required"
    | some user =>
      if user.Role ≠ role then .error 403 "Insufficient permissions"
      else next c

/-- Go `Middleware.RequireAdmin`. -/
def Middleware.RequireAdmin (m : Middleware) (next : Handler) : Handler :=
  m.RequireRole "admin" next

deriving instance DecidableEq for Except

/-! ## Helper lemmas -/

theorem splitFirstSpace_some : ∀ {l a b : List Char},
    splitFirstSpace l = some (a, b) → l = a ++ ' ' :: b := by
  intro l
  induction l with
  | nil => intro a b h; exact absurd h (by simp [splitFirstSpace])
  | cons c cs ih =>
    intro a b h
    by_cases hc : c = ' '
    · rw [splitFirstSpace, if_pos hc] at h
      obtain ⟨ha, hb⟩ := Prod.mk.injEq .. ▸ Option.some.inj h
      subst ha; subst hb; simp [hc]
    · rw [splitFirstSpace, if_neg hc] at h
      rcases hsp : splitFirstSpace cs with _ | ⟨x, y⟩
      · rw [hsp] at h; exact absurd h (by simp)
      · rw [hsp] at h
        obtain ⟨ha, hb⟩ := Prod.mk.injEq .. ▸ Option.some.inj h
        subst hb
        rw [← ha]
        simp [ih hsp]

theorem splitFirstSpace_bearer (l : List Char) :
    splitFirstSpace ('B' :: 'e' :: 'a' :: 'r' :: 'e' :: 'r' :: ' ' :: l) =
      some (['B', 'e', 'a', 'r', 'e', 'r'], l) := by
  simp [splitFirstSpace]

theorem extractToken_of_bearer (m : Middleware) (c : Ctx) (tok : String)
    (h : c.request.authorization = "Bearer " ++ tok) :
    m.extractToken c = tok := by
  have hdata : ("Bearer " ++ tok).data = 'B' :: 'e' :: 'a' :: 'r' :: 'e' :: 'r' :: ' ' :: tok.data := rfl
  have hne : c.request.authorization ≠ "" := by
    rw [h]
    intro hcontra
    have h2 := congrArg String.data hcontra
    rw [hdata] at h2
    exact List.cons_ne_nil _ _ h2
  unfold Middleware.extractToken
  rw [if_neg hne, h, hdata, splitFirstSpace_bearer]
  dsimp only
  rw [if_neg (by decide)]

theorem extractToken_nonempty (m : Middleware) (c : Ctx)
    (h : m.extractToken c ≠ "") :
    c.request.authorization = "Bearer " ++ m.extractToken c := by
  by_cases h0 : c.request.authorization = ""
  · exact absurd (by simp [Middleware.extractToken, h0]) h
  · rcases hsp : splitFirstSpace c.request.authorization.data with _ | ⟨a, b⟩
    · exact absurd (by simp [Middleware.extractToken, h0, hsp]) h
    · by_cases hbear : String.mk a = "Bearer"
      · have hex : m.extractToken c = String.mk b := by
          simp [Middleware.extractToken, h0, hsp, hbear]
        rw [hex]
        apply String.ext
        rw [String.data_append]
        have ha : a = "Bearer".data := congrArg String.data hbear
        rw [splitFirstSpace_some hsp, ha]
        rfl
      · exact absurd (by simp [Middleware.extractToken, h0, hsp, hbear]) h

theorem wrap64_eq_self {x : Int} (h1 : -9223372036854775808 ≤ x)
    (h2 : x < 9223372036854775808) : wrap64 x = x := by
  unfold wrap64
  rw [Int.emod_eq_of_lt (by omega) (by omega)]
  omega

/-! ## Claim theorems: token issuance and validation -/

set_option maxRecDepth 8000 in
/-- Claim C1 counterexample: the positive configured access expiry 2562048
hours overflows the `int64` duration multiplication — the product wraps to
about minus 292 years — so the issued access token is already expired at
issuance and the round trip fails for this positive configured expiry. -/
theorem access_token_roundtrip_cex :
    0 < (NewJWT "k" 2562048 9000000).expiryHours ∧
    (NewJWT "k" 2562048 9000000).ValidateToken 0
        ((NewJWT "k" 2562048 9000000).GenerateAccessToken 0 ⟨"u1", "a@b.c", "admin"⟩) =
      Except.error TokenError.outsideWindow := by
  decide

/-- Claim C1 (amended: the positive configured access expiry must also be at
most 2562047 hours, so that `time.Hour * time.Duration(expiryHours)` does
not overflow `int64`): validating the access token produced for a principal
with the same `JWT` instance succeeds and yields claims whose subject and
`user_id` equal the principal's id, whose email equals the principal's email
and whose role equals the principal's role. -/
theorem access_token_roundtrip_no_overflow (j : JWT) (u : User) (now : Int)
    (h1 : 0 < j.expiryHours)
    (h2 : 3600000000000 * j.expiryHours < 9223372036854775808) :
    ∃ cl, j.ValidateToken now (j.GenerateAccessToken now u) = .ok cl ∧
      cl.Subject = u.id ∧ cl.UserID = u.id ∧ cl.Email = u.email ∧ cl.Role = u.role := by
  refine ⟨claimsOfPayload (j.accessPayload now u), ?_, rfl, rfl, rfl, rfl⟩
  have hwin : now < (j.accessPayload now u).exp ∧ (j.accessPayload now u).nbf ≤ now := by
    refine ⟨?_, le_refl now⟩
    show now < now + wrap64 (3600000000000 * j.expiryHours)
    rw [wrap64_eq_self (by omega) (by omega)]
    omega
  show JWT.ValidateToken j now (Tok.wf (j.accessPayload now u)
      (macSign j.secret (signingInput (j.accessPayload now u)))) =
    Except.ok (claimsOfPayload (j.accessPayload now u))
  simp only [JWT.ValidateToken]
  rw [if_neg (fun hne => hne rfl), if_pos hwin]

/-- Claim C2: `RequireRole` compares the authenticated claims' role to the
required role by exact string equality: on mismatch it responds 403
"Insufficient permissions" without invoking the wrapped handler (the
response is the same for every handler), and on exact match it invokes the
wrapped handler with the context unmodified. -/
theorem requireRole_exact_match (m : Middleware) (role : String) (next : Handler)
    (c : Ctx) (claims : Claims) (h : m.GetUserFromContext c = some claims) :
    (claims.Role ≠ role → m.RequireRole role next c = .error 403 "Insufficient permissions") ∧
    (claims.Role = role → m.RequireRole role next c = next c) := by
  have hbody : m.RequireRole role next c =
      if claims.Role ≠ role then Resp.error 403 "Insufficient permissions" else next c := by
    simp only [Middleware.RequireRole]
    rw [h]
  refine ⟨fun hne => ?_, fun heq => ?_⟩
  · rw [hbody, if_pos hne]
  · rw [hbody, if_neg (not_not_intro heq)]

/-- Claim C3 counterexample: with a configured refresh expiry of 0 hours,
the refresh token is already outside its validity window at issuance time,
so the round trip does not return the principal's id. -/
theorem refresh_roundtrip_cex :
    (NewJWT "s" 24 0).ValidateRefreshToken 0
      ((NewJWT "s" 24 0).GenerateRefreshToken 0 ⟨"u1", "a@b.c", "member"⟩) ≠
      Except.ok "u1" := by
  decide

/-- Claim C3 (amended: the configured refresh expiry must be positive and at
most 2562047 hours, so that `time.Hour * time.Duration(refreshExpiryHours)`
does not overflow `int64`): validating the refresh token produced for a
principal with the same `JWT` instance returns exactly the principal's id,
and the refresh token's payload carries no email, no role and no `user_id`
fields. -/
theorem refresh_roundtrip_no_overflow (j : JWT) (u : User) (now : Int)
    (h1 : 0 < j.refreshExpiryHours)
    (h2 : 3600000000000 * j.refreshExpiryHours < 9223372036854775808) :
    j.ValidateRefreshToken now (j.GenerateRefreshToken now u) = .ok u.id ∧
    (j.GenerateRefreshToken now u).payload? = some (j.refreshPayload now u) ∧
    (j.refreshPayload now u).email = none ∧ (j.refreshPayload now u).role = none ∧
    (j.refreshPayload now u).user_id = none := by
  refine ⟨?_, rfl, rfl, rfl, rfl⟩
  have hwin : now < (j.refreshPayload now u).exp ∧ (j.refreshPayload now u).nbf ≤ now := by
    refine ⟨?_, le_refl now⟩
    show now < now + wrap64 (3600000000000 * j.refreshExpiryHours)
    rw [wrap64_eq_self (by omega) (by omega)]
    omega
  show JWT.ValidateRefreshToken j now (Tok.wf (j.refreshPayload now u)
      (macSign j.secret (signingInput (j.refreshPayload now u)))) = Except.ok u.id
  simp only [JWT.ValidateRefreshToken]
  rw [if_neg (fun hne => hne rfl), if_pos hwin]
  rfl

/-- Claim C4 counterexample: `NewJWT` enforces no ordering between the two
configured expiries — the instance `NewJWT "s" 5 3` is constructed with an
access expiry not below its refresh expiry, and the tokens it issues at the
same instant have the access expiration not below the refresh expiration. -/
theorem expiry_ordering_cex :
    ¬((NewJWT "s" 5 3).expiryHours < (NewJWT "s" 5 3).refreshExpiryHours) ∧
    ¬(((NewJWT "s" 5 3).accessPayload 0 ⟨"u1", "a@b.c", "admin"⟩).exp <
      ((NewJWT "s" 5 3).refreshPayload 0 ⟨"u1", "a@b.c", "admin"⟩).exp) := by
  decide

/-- Claim C4 (amended: the ordering is a configuration assumption, not an
enforced invariant, and it transfers to issued tokens only while both
hour-to-duration `int64` conversions stay in range): whenever the configured
access expiry is below the configured refresh expiry and neither duration
multiplication overflows, the token pair issued at any instant has the
access token expiring strictly before the refresh token. -/
theorem expiry_ordering_no_overflow (j : JWT) (u : User) (now : Int)
    (h1 : j.expiryHours < j.refreshExpiryHours)
    (h2 : -9223372036854775808 ≤ 3600000000000 * j.expiryHours)
    (h3 : 3600000000000 * j.refreshExpiryHours < 9223372036854775808) :
    (j.accessPayload now u).exp < (j.refreshPayload now u).exp ∧
    (j.GenerateTokenPair now u).AccessToken = Tok.wf (j.accessPayload now u)
      (macSign j.secret (signingInput (j.accessPayload now u))) ∧
    (j.GenerateTokenPair now u).RefreshToken = Tok.wf (j.refreshPayload now u)
      (macSign j.secret (signingInput (j.refreshPayload now u))) := by
  refine ⟨?_, rfl, rfl⟩
  show now + wrap64 (3600000000000 * j.expiryHours) <
    now + wrap64 (3600000000000 * j.refreshExpiryHours)
  rw [wrap64_eq_self (by omega) (by omega), wrap64_eq_self (by omega) (by omega)]
  omega

/-- Claim C5: for every well-formed token and every validation time,
`ValidateToken` rejects whenever the current time is strictly outside the
token's `[not_before, expires_at]` window, with zero clock-skew tolerance;
in particular a token whose expiration lies in the past always fails. -/
theorem validate_rejects_outside_window (j : JWT) (now : Int) (p : Payload) (s : String)
    (h : now < p.nbf ∨ p.exp < now) :
    ∃ e, j.ValidateToken now (Tok.wf p s) = .error e := by
  by_cases hs : s = macSign j.secret (signingInput p)
  · have hwin : ¬(now < p.exp ∧ p.nbf ≤ now) := by
      rintro ⟨h1, h2⟩
      rcases h with h | h <;> omega
    refine ⟨.outsideWindow, ?_⟩
    simp only [JWT.ValidateToken]
    rw [if_neg (not_not_intro hs), if_neg hwin]
  · refine ⟨.badSignature, ?_⟩
    simp only [JWT.ValidateToken]
    rw [if_pos hs]

/-- Claim C6: whenever the Authorization header yields a non-empty extracted
token whose validation fails — for any cause the validator can report —
`RequireAuth` responds 401 with the single message "Invalid or expired
token", for every wrapped handler (so the handler is not invoked). -/
theorem requireAuth_invalid_token (m : Middleware) (now : Int) (decode : String → Tok)
    (next : Handler) (c : Ctx) (e : TokenError)
    (hne : m.extractToken c ≠ "")
    (hval : m.jwt.ValidateToken now (decode (m.extractToken c)) = .error e) :
    m.RequireAuth now decode next c = .error 401 "Invalid or expired token" := by
  simp only [Middleware.RequireAuth]
  rw [if_neg hne, hval]

/-- Claim C7: on a request whose Authorization header is absent or is not
exactly the scheme "Bearer", one space, and a non-empty token, `RequireAuth`
responds 401 "Authorization header is required", for every wrapped handler
(so the handler is not invoked). -/
theorem requireAuth_missing_header (m : Middleware) (now : Int) (decode : String → Tok)
    (next : Handler) (c : Ctx)
    (h : ∀ tok : String, tok ≠ "" → c.request.authorization ≠ "Bearer " ++ tok) :
    m.RequireAuth now decode next c = .error 401 "Authorization header is required" := by
  have hemp : m.extractToken c = "" := by
    by_contra hne
    exact h (m.extractToken c) hne (extractToken_nonempty m c hne)
  simp only [Middleware.RequireAuth]
  rw [if_pos hemp]

/-- Claim C9: every request through `RequireAuth` — alone or composed with
`RequireRole` — either ends in a terminal 401/403 error response that is the
same whatever the wrapped handler is (the handler is never invoked on
failure), or reaches the wrapped handler after successful validation (and,
when composed, a successful role check) with the claims attached. -/
theorem middleware_failures_terminal :
    (∀ (m : Middleware) (now : Int) (decode : String → Tok) (next : Handler) (c : Ctx),
      (∃ msg, (msg = "Authorization header is required" ∨ msg = "Invalid or expired token") ∧
        ∀ hd : Handler, m.RequireAuth now decode hd c = .error 401 msg) ∨
      (∃ claims, m.jwt.ValidateToken now (decode (m.extractToken c)) = .ok claims ∧
        m.RequireAuth now decode next c = next (c.setUser claims))) ∧
    (∀ (m : Middleware) (now : Int) (decode : String → Tok) (role : String)
        (next : Handler) (c : Ctx),
      (∃ status msg, (status = 401 ∨ status = 403) ∧
        ∀ hd : Handler, m.RequireAuth now decode (m.RequireRole role hd) c =
          .error status msg) ∨
      (∃ claims, m.jwt.ValidateToken now (decode (m.extractToken c)) = .ok claims ∧
        claims.Role = role ∧
        m.RequireAuth now decode (m.RequireRole role next) c = next (c.setUser claims))) := by
  constructor
  · intro m now decode next c
    by_cases hemp : m.extractToken c = ""
    · left
      refine ⟨"Authorization header is required", Or.inl rfl, fun hd => ?_⟩
      simp only [Middleware.RequireAuth]
      rw [if_pos hemp]
    · rcases hval : m.jwt.ValidateToken now (decode (m.extractToken c)) with e | claims
      · left
        refine ⟨"Invalid or expired token", Or.inr rfl, fun hd => ?_⟩
        simp only [Middleware.RequireAuth]
        rw [if_neg hemp, hval]
      · right
        refine ⟨claims, rfl, ?_⟩
        simp only [Middleware.RequireAuth]
        rw [if_neg hemp, hval]
  · intro m now decode role next c
    by_cases hemp : m.extractToken c = ""
    · left
      refine ⟨401, "Authorization header is required", Or.inl rfl, fun hd => ?_⟩
      simp only [Middleware.RequireAuth]
      rw [if_pos hemp]
    · rcases hval : m.jwt.ValidateToken now (decode (m.extractToken c)) with e | claims
      · left
        refine ⟨401, "Invalid or expired token", Or.inl rfl, fun hd => ?_⟩
        simp only [Middleware.RequireAuth]
        rw [if_neg hemp, hval]
      · by_cases hrole : claims.Role = role
        · right
          refine ⟨claims, rfl, hrole, ?_⟩
          simp only [Middleware.RequireAuth]
          rw [if_neg hemp, hval]
          simp only [Middleware.RequireRole, Middleware.GetUserFromContext, Ctx.setUser]
          rw [if_neg (not_not_intro hrole)]
        · left
          refine ⟨403, "Insufficient permissions", Or.inr rfl, fun hd => ?_⟩
          simp only [Middleware.RequireAuth]
          rw [if_neg hemp, hval]
          simp only [Middleware.RequireRole, Middleware.GetUserFromContext, Ctx.setUser]
          rw [if_pos hrole]

/-- Claim C10: `extractToken` splits the Authorization header at its first
space only — for a non-empty candidate token the extraction returns it
exactly when the header is the case-sensitive scheme "Bearer", one space,
and that token (which is the entire remainder, further spaces included); a
header of exactly "Bearer " or a differently-cased "bearer x" is therefore
answered by `RequireAuth` as a missing header. -/
theorem extractToken_first_space :
    (∀ (m : Middleware) (c : Ctx) (tok : String), tok ≠ "" →
      (m.extractToken c = tok ↔ c.request.authorization = "Bearer " ++ tok)) ∧
    (∀ (m : Middleware) (now : Int) (decode : String → Tok) (next : Handler) (c : Ctx),
      c.request.authorization = "Bearer " ∨ c.request.authorization = "bearer x" →
      m.RequireAuth now decode next c = .error 401 "Authorization header is required") := by
  constructor
  · intro m c tok hne
    constructor
    · intro h
      rw [← h]
      exact extractToken_nonempty m c (h ▸ hne)
    · intro h
      exact extractToken_of_bearer m c tok h
  · intro m now decode next c hc
    have hemp : m.extractToken c = "" := by
      rcases hc with hc | hc <;>
        · simp only [Middleware.extractToken]
          rw [hc]
          decide
    simp only [Middleware.RequireAuth]
    rw [if_pos hemp]

/-! ## Witnesses: the claim theorems applied at concrete inputs -/

/-- Witness for `access_token_roundtrip_no_overflow` at a concrete instance
and principal. -/
theorem access_token_roundtrip_no_overflow_witness :
    ∃ cl, (NewJWT "k" 1 24).ValidateToken 0
        ((NewJWT "k" 1 24).GenerateAccessToken 0 ⟨"u1", "a@b.c", "admin"⟩) = .ok cl ∧
      cl.Subject = "u1" ∧ cl.UserID = "u1" ∧ cl.Email = "a@b.c" ∧ cl.Role = "admin" :=
  access_token_roundtrip_no_overflow (NewJWT "k" 1 24) ⟨"u1", "a@b.c", "admin"⟩ 0
    (by decide) (by decide)

/-- Witness for `requireRole_exact_match`: a "member" principal against
`RequireRole "admin"` and against `RequireRole "member"`. -/
theorem requireRole_exact_match_witness :
    ((NewMiddleware (NewJWT "k" 1 24)).RequireRole "admin" Resp.handled
        ⟨⟨""⟩, some ⟨"u1", "a@b.c", "member", 3600, 0, 0, "u1"⟩⟩ =
      .error 403 "Insufficient permissions") ∧
    ((NewMiddleware (NewJWT "k" 1 24)).RequireRole "member" Resp.handled
        ⟨⟨""⟩, some ⟨"u1", "a@b.c", "member", 3600, 0, 0, "u1"⟩⟩ =
      Resp.handled ⟨⟨""⟩, some ⟨"u1", "a@b.c", "member", 3600, 0, 0, "u1"⟩⟩) :=
  ⟨(requireRole_exact_match (NewMiddleware (NewJWT "k" 1 24)) "admin" Resp.handled
      ⟨⟨""⟩, some ⟨"u1", "a@b.c", "member", 3600, 0, 0, "u1"⟩⟩
      ⟨"u1", "a@b.c", "member", 3600, 0, 0, "u1"⟩ rfl).1 (by decide),
   (requireRole_exact_match (NewMiddleware (NewJWT "k" 1 24)) "member" Resp.handled
      ⟨⟨""⟩, some ⟨"u1", "a@b.c", "member", 3600, 0, 0, "u1"⟩⟩
      ⟨"u1", "a@b.c", "member", 3600, 0, 0, "u1"⟩ rfl).2 rfl⟩

/-- Witness for `refresh_roundtrip_no_overflow` at a concrete instance. -/
theorem refresh_roundtrip_no_overflow_witness :
    (NewJWT "k" 1 24).ValidateRefreshToken 0
        ((NewJWT "k" 1 24).GenerateRefreshToken 0 ⟨"u2", "b@c.d", "member"⟩) = .ok "u2" :=
  (refresh_roundtrip_no_overflow (NewJWT "k" 1 24) ⟨"u2", "b@c.d", "member"⟩ 0
    (by decide) (by decide)).1

/-- Witness for `expiry_ordering_no_overflow` at a concrete instance. -/
theorem expiry_ordering_no_overflow_witness :
    ((NewJWT "k" 1 24).accessPayload 0 ⟨"u1", "a@b.c", "admin"⟩).exp <
      ((NewJWT "k" 1 24).refreshPayload 0 ⟨"u1", "a@b.c", "admin"⟩).exp :=
  (expiry_ordering_no_overflow (NewJWT "k" 1 24) ⟨"u1", "a@b.c", "admin"⟩ 0
    (by decide) (by decide) (by decide)).1

/-- Witness for `validate_rejects_outside_window`: a token whose expiration
lies in the past. -/
theorem validate_outside_window_witness :
    ∃ e, (NewJWT "k" 1 24).ValidateToken 10
        (Tok.wf ⟨some "u1", some "a@b.c", some "admin", 5, 0, 0, "u1"⟩ "sig") = .error e :=
  validate_rejects_outside_window (NewJWT "k" 1 24) 10
    ⟨some "u1", some "a@b.c", some "admin", 5, 0, 0, "u1"⟩ "sig" (Or.inr (by decide))

/-- Witness for `requireAuth_invalid_token`: a garbage bearer token. -/
theorem requireAuth_invalid_token_witness :
    (NewMiddleware (NewJWT "k" 1 24)).RequireAuth 0 Tok.malformed Resp.handled
        ⟨⟨"Bearer garbage"⟩, none⟩ = .error 401 "Invalid or expired token" :=
  requireAuth_invalid_token (NewMiddleware (NewJWT "k" 1 24)) 0 Tok.malformed Resp.handled
    ⟨⟨"Bearer garbage"⟩, none⟩ TokenError.malformed (by decide) (by decide)

/-- Witness for `requireAuth_missing_header`: no Authorization header. -/
theorem requireAuth_missing_header_witness :
    (NewMiddleware (NewJWT "k" 1 24)).RequireAuth 0 Tok.malformed Resp.handled
        ⟨⟨""⟩, none⟩ = .error 401 "Authorization header is required" :=
  requireAuth_missing_header (NewMiddleware (NewJWT "k" 1 24)) 0 Tok.malformed Resp.handled
    ⟨⟨""⟩, none⟩ (by
      intro tok htok hcontra
      have h2 := congrArg String.data hcontra
      rw [String.data_append] at h2
      exact List.cons_ne_nil _ _ h2.symm)

/-- Witness for `extractToken_first_space`: a token containing a space is
returned whole, and "Bearer " / "bearer x" headers give the missing-header
response. -/
theorem extractToken_first_space_witness :
    (NewMiddleware (NewJWT "k" 1 24)).extractToken ⟨⟨"Bearer abc def"⟩, none⟩ = "abc def" ∧
    (NewMiddleware (NewJWT "k" 1 24)).RequireAuth 0 Tok.malformed Resp.handled
        ⟨⟨"Bearer "⟩, none⟩ = .error 401 "Authorization header is required" ∧
    (NewMiddleware (NewJWT "k" 1 24)).RequireAuth 0 Tok.malformed Resp.handled
        ⟨⟨"bearer x"⟩, none⟩ = .error 401 "Authorization header is required" :=
  ⟨(extractToken_first_space.1 (NewMiddleware (NewJWT "k" 1 24))
      ⟨⟨"Bearer abc def"⟩, none⟩ "abc def" (by decide)).mpr rfl,
   extractToken_first_space.2 (NewMiddleware (NewJWT "k" 1 24)) 0 Tok.malformed Resp.handled
      ⟨⟨"Bearer "⟩, none⟩ (Or.inl rfl),
   extractToken_first_space.2 (NewMiddleware (NewJWT "k" 1 24)) 0 Tok.malformed Resp.handled
      ⟨⟨"bearer x"⟩, none⟩ (Or.inr rfl)⟩
